import Mathlib

/-!
Shallow embedding of `api_server.py` (SIOMA attendance synchronization backend).

The relational store is modelled as explicit lists of rows; each endpoint of the
server becomes a pure function from a database state (plus its request body) to
a new database state and an HTTP-level outcome.  Binary columns (`bytea`) are
lists of naturals below 256; SQL `NULL` is `Option.none`.  Python's
`base64.b64encode` / `base64.b64decode` are modelled over those byte lists.
-/

namespace Sioma

/-! ## Data model: the four relational tables -/

/-- A row of the OPERARIO table. -/
structure Operario where
  id : Nat
  usuario : String
  nombre : String
  sede_id : Int
  rol : String
  password_hash : String
deriving DecidableEq, Repr

/-- A row of the TRABAJADOR table. -/
structure Trabajador where
  id : Nat
  cedula : String
  nombre_completo : String
  sede_id : Int
  activo : Bool
deriving DecidableEq, Repr

/-- A row of the EMBEDDING_BIOMETRICO table; `embedding_data` is a nullable
`bytea` column, `none` standing for SQL NULL. -/
structure EmbeddingBiometrico where
  trabajador_id : Nat
  embedding_data : Option (List Nat)
deriving DecidableEq, Repr

/-- A row of the REGISTRO_ASISTENCIA table. -/
structure RegistroAsistencia where
  trabajador_id : Nat
  timestamp : String
  tipo_evento : String
deriving DecidableEq, Repr

/-- The database state: the four tables. -/
structure DB where
  operarios : List Operario
  trabajadores : List Trabajador
  embeddings : List EmbeddingBiometrico
  registros : List RegistroAsistencia
deriving DecidableEq, Repr

/-! ## Request bodies (pydantic models) -/

/-- Request body of POST /login. -/
structure OperarioLogin where
  usuario : String
  password : String
deriving DecidableEq, Repr

/-- One element of the POST /asistencia/sincronizar body. -/
structure AsistenciaRecord where
  cedula : String
  timestamp : String
  tipo_evento : String
deriving DecidableEq, Repr

/-- Request body of POST /trabajador/sincronizar. -/
structure NuevoTrabajador where
  cedula : String
  nombre_completo : String
  sede_id : Int
  embedding_b64 : String
deriving DecidableEq, Repr

/-- HTTP-level failure (FastAPI HTTPException or an uncaught driver error that
the framework turns into a 500). -/
inductive ApiError where
  | httpError (statusCode : Nat) (detail : String)
  | dbError (detail : String)
deriving DecidableEq, Repr

/-! ## Base64 (Python `base64.b64encode` / `b64decode`) -/

/-- The standard base64 alphabet, in encoding order. -/
def b64Alphabet : List Char :=
  ['A','B','C','D','E','F','G','H','I','J','K','L','M','N','O','P',
   'Q','R','S','T','U','V','W','X','Y','Z',
   'a','b','c','d','e','f','g','h','i','j','k','l','m','n','o','p',
   'q','r','s','t','u','v','w','x','y','z',
   '0','1','2','3','4','5','6','7','8','9','+','/']

/-- Character encoding a 6-bit value. -/
def encChar (n : Nat) : Char := b64Alphabet.getD n 'A'

/-- Index of a character in a table, `none` when it does not occur. -/
def idxOfChar (c : Char) : List Char → Option Nat
  | [] => none
  | a :: rest => if a = c then some 0 else (idxOfChar c rest).map (· + 1)

/-- The 6-bit value of an alphabet character, `none` for other characters. -/
def decChar (c : Char) : Option Nat := idxOfChar c b64Alphabet

/-- Standard base64 of a byte list, as characters: 3 bytes become 4 characters,
a 1- or 2-byte tail is padded with `=`. -/
def b64encodeBytes : List Nat → List Char
  | [] => []
  | [b1] => [encChar (b1 / 4), encChar (b1 % 4 * 16), '=', '=']
  | [b1, b2] => [encChar (b1 / 4), encChar (b1 % 4 * 16 + b2 / 16),
                 encChar (b2 % 16 * 4), '=']
  | b1 :: b2 :: b3 :: rest =>
      encChar (b1 / 4) :: encChar (b1 % 4 * 16 + b2 / 16) ::
      encChar (b2 % 16 * 4 + b3 / 64) :: encChar (b3 % 64) :: b64encodeBytes rest

/-- `base64.b64encode(bs).decode('utf-8')`. -/
def b64encode (bs : List Nat) : String := String.mk (b64encodeBytes bs)

/-- Characters kept by `b64decode` (validate=False discards anything that is
neither in the alphabet nor padding before decoding). -/
def b64KeepChar (c : Char) : Bool := (decChar c).isSome || c = '='

/-- Decode a stripped character stream four characters at a time; `=` padding
is accepted only at the end, and a stream whose length is not a multiple of
four is an error (Python raises `binascii.Error`). -/
def b64decodeQuads : List Char → Option (List Nat)
  | [] => some []
  | c1 :: c2 :: c3 :: c4 :: rest =>
    match decChar c1, decChar c2 with
    | some e1, some e2 =>
      if c3 = '=' then
        if c4 = '=' ∧ rest = [] then some [e1 * 4 + e2 / 16] else none
      else
        match decChar c3 with
        | some e3 =>
          if c4 = '=' then
            if rest = [] then some [e1 * 4 + e2 / 16, e2 % 16 * 16 + e3 / 4] else none
          else
            match decChar c4 with
            | some e4 =>
              (b64decodeQuads rest).map
                (fun bs => (e1 * 4 + e2 / 16) :: (e2 % 16 * 16 + e3 / 4) ::
                           (e3 % 4 * 64 + e4) :: bs)
            | none => none
        | none => none
    | _, _ => none
  | _ => none

/-- `base64.b64decode(s)`: discard foreign characters, then decode;
`none` models a raised `binascii.Error`. -/
def b64decode (s : String) : Option (List Nat) :=
  b64decodeQuads (s.data.filter b64KeepChar)

/-! ## POST /login (`login_operario`) -/

/-- `SELECT id, nombre, sede_id, rol, password_hash FROM OPERARIO WHERE usuario = %s`
followed by `fetchone()`: the first matching row, if any. -/
def findOperario (db : DB) (usuario : String) : Option Operario :=
  db.operarios.find? (fun o => o.usuario == usuario)

/-- The JSON object returned by a successful login. -/
structure LoginResponse where
  id : Nat
  nombre : String
  sede_id : Int
  rol : String
deriving DecidableEq, Repr

/-- `login_operario`: look the user up; 404 when absent; otherwise return the
row's id, nombre, sede_id and rol.  The supplied password is never consulted
(the bcrypt comparison in the source is commented out). -/
def login_operario (db : DB) (credenciales : OperarioLogin) :
    Except ApiError LoginResponse :=
  match findOperario db credenciales.usuario with
  | none => .error (.httpError 404 "Usuario no encontrado.")
  | some operario => .ok ⟨operario.id, operario.nombre, operario.sede_id, operario.rol⟩

/-! ## GET /sede/{sede_id}/trabajadores (`get_trabajadores_por_sede`) -/

/-- One element of the endpoint's JSON response; `embedding_b64 = none` is the
JSON null (the key itself is always emitted). -/
structure TrabajadorConEmbedding where
  id : Nat
  cedula : String
  nombre_completo : String
  embedding_b64 : Option String
deriving DecidableEq, Repr

/-- Result rows of the SQL query
`SELECT t.id, t.cedula, t.nombre_completo, eb.embedding_data FROM TRABAJADOR t
JOIN EMBEDDING_BIOMETRICO eb ON t.id = eb.trabajador_id
WHERE t.sede_id = %s AND t.activo = TRUE`:
an inner join, modelled in nested-loop order (row order is
storage-determined; the endpoints never promise one). -/
def joinRows (db : DB) (sede_id : Int) : List (Trabajador × EmbeddingBiometrico) :=
  (db.trabajadores.filter (fun t => t.sede_id == sede_id && t.activo)).flatMap
    (fun t => (db.embeddings.filter (fun eb => eb.trabajador_id == t.id)).map
      (fun eb => (t, eb)))

/-- Python truthiness of a nullable bytes column: `if trab['embedding']:` is
false both for SQL NULL and for an empty byte string. -/
def pyTruthyBytes : Option (List Nat) → Bool
  | none => false
  | some bs => !bs.isEmpty

/-- The loop body of `get_trabajadores_por_sede`: build the response dict for
one fetched row. -/
def rowToResponse (t : Trabajador) (eb : EmbeddingBiometrico) : TrabajadorConEmbedding :=
  { id := t.id, cedula := t.cedula, nombre_completo := t.nombre_completo,
    embedding_b64 :=
      if pyTruthyBytes eb.embedding_data
      then some (b64encode (eb.embedding_data.getD []))
      else none }

/-- `get_trabajadores_por_sede`: run the join query and map every fetched row
through the response-building loop, in order. -/
def get_trabajadores_por_sede (db : DB) (sede_id : Int) : List TrabajadorConEmbedding :=
  (joinRows db sede_id).map (fun p => rowToResponse p.1 p.2)

/-! ## POST /trabajador/sincronizar (`sincronizar_nuevo_trabajador`) -/

/-- The 201 body of a successful enrollment. -/
structure EnrollOk where
  mensaje : String
  trabajador_id : Nat
deriving DecidableEq, Repr

/-- The `RETURNING id` of the TRABAJADOR insert: a fresh generated identity,
modelled as one more than the largest id in the table. -/
def nextTrabajadorId (db : DB) : Nat :=
  (db.trabajadores.foldr (fun t m => max t.id m) 0) + 1

/-- Does the TRABAJADOR insert violate the unique constraint on `cedula`?
(psycopg2 then raises `IntegrityError`.) -/
def cedulaExists (db : DB) (cedula : String) : Bool :=
  db.trabajadores.any (fun w => w.cedula == cedula)

/-- `sincronizar_nuevo_trabajador`: insert the worker (IntegrityError on a
duplicate cedula rolls back and yields 409 naming the cedula), decode the
base64 text (a `binascii.Error` is caught by the generic handler which rolls
back and yields 500), insert the embedding, commit.  The returned `DB` is the
committed state after the call. -/
def sincronizar_nuevo_trabajador (db : DB) (trabajador : NuevoTrabajador) :
    DB × Except ApiError EnrollOk :=
  if cedulaExists db trabajador.cedula then
    (db, .error (.httpError 409 ("La cédula '" ++ trabajador.cedula ++ "' ya existe.")))
  else
    let trabajador_id := nextTrabajadorId db
    match b64decode trabajador.embedding_b64 with
    | none =>
        (db, .error (.httpError 500 "Error en la base de datos: Invalid base64-encoded string"))
    | some embedding_bytes =>
        ({ db with
            trabajadores := db.trabajadores ++
              [⟨trabajador_id, trabajador.cedula, trabajador.nombre_completo,
                trabajador.sede_id, true⟩],
            embeddings := db.embeddings ++
              [⟨trabajador_id, some embedding_bytes⟩] },
         .ok ⟨"Trabajador creado exitosamente", trabajador_id⟩)

/-! ## POST /asistencia/sincronizar (`sincronizar_asistencia`) -/

/-- An element of the response's `errores` list. -/
structure ItemError where
  cedula : String
  error : String
deriving DecidableEq, Repr

/-- The `resumen` object of the response. -/
structure Resumen where
  recibidos : Nat
  guardados_exitosamente : Nat
deriving DecidableEq, Repr

/-- The response of POST /asistencia/sincronizar. -/
structure SyncResponse where
  resumen : Resumen
  errores : List ItemError
deriving DecidableEq, Repr

/-- `SELECT id FROM TRABAJADOR WHERE cedula = %s` + `fetchone()`: the first
worker with that cedula, with no filter on `activo`. -/
def findTrabajadorByCedula (db : DB) (cedula : String) : Option Trabajador :=
  db.trabajadores.find? (fun t => t.cedula == cedula)

/-- The batch loop of `sincronizar_asistencia`.  `failInsert i` injects a
storage error on the INSERT of the i-th record (e.g. an unparseable timestamp);
the except branch then calls `conn.rollback()`, which discards every insert
still pending on the shared connection, and appends an error entry.  Returns
(pending inserts since the last rollback, success tally, error list). -/
def asistenciaLoop (db : DB) (failInsert : Nat → Bool) :
    List AsistenciaRecord → Nat → List RegistroAsistencia → Nat → List ItemError →
    List RegistroAsistencia × Nat × List ItemError
  | [], _, pending, guardados, errores => (pending, guardados, errores)
  | reg :: rest, i, pending, guardados, errores =>
    match findTrabajadorByCedula db reg.cedula with
    | some trabajador =>
        if failInsert i then
          asistenciaLoop db failInsert rest (i + 1) [] guardados
            (errores ++ [⟨reg.cedula, "insert failed"⟩])
        else
          asistenciaLoop db failInsert rest (i + 1)
            (pending ++ [⟨trabajador.id, reg.timestamp, reg.tipo_evento⟩])
            (guardados + 1) errores
    | none =>
        asistenciaLoop db failInsert rest (i + 1) pending guardados
          (errores ++ [⟨reg.cedula, "Cédula no encontrada."⟩])

/-- `sincronizar_asistencia`: run the loop over the batch on one shared
connection, then `conn.commit()` commits whatever is still pending (inserts
made after the last rollback, if any), and return the summary. -/
def sincronizar_asistencia (db : DB) (failInsert : Nat → Bool)
    (registros : List AsistenciaRecord) : DB × SyncResponse :=
  let out := asistenciaLoop db failInsert registros 0 [] 0 []
  ({ db with registros := db.registros ++ out.1 },
   ⟨⟨registros.length, out.2.1⟩, out.2.2⟩)

/-! ## Connection lifecycle

The same four handlers, instrumented with the lifecycle of the psycopg2
connection they acquire.  A boolean oracle injects a raised driver error at
each statement the source does not guard with try/finally; the first component
of each result records whether `conn.close()` ran before the handler exited. -/

/-- `login_operario` with connection tracking.  `selectFails` injects a raised
error on the SELECT; the handler has no try/finally, so the exception
propagates before the `conn.close()` on the success/404 path runs. -/
def login_operario_conn (db : DB) (credenciales : OperarioLogin)
    (selectFails : Bool) : Bool × Except ApiError LoginResponse :=
  if selectFails then
    (false, .error (.dbError "SELECT failed"))
  else
    (true, login_operario db credenciales)

/-- `get_trabajadores_por_sede` with connection tracking.  `selectFails`
injects a raised error on the join query; the handler has no try/finally, so
the `conn.close()` after the cursor block is skipped on that path. -/
def get_trabajadores_conn (db : DB) (sede_id : Int)
    (selectFails : Bool) : Bool × Except ApiError (List TrabajadorConEmbedding) :=
  if selectFails then
    (false, .error (.dbError "SELECT failed"))
  else
    (true, .ok (get_trabajadores_por_sede db sede_id))

/-- `sincronizar_nuevo_trabajador` with connection tracking.
`insertTrabajadorFails` / `insertEmbeddingFails` inject raised storage errors
on the two INSERTs (beyond the modelled IntegrityError and decode failures);
every branch of the handler body runs under `try ... finally: conn.close()`,
and each failure branch first runs `conn.rollback()`. -/
def sincronizar_nuevo_trabajador_conn (db : DB) (trabajador : NuevoTrabajador)
    (insertTrabajadorFails : Bool) (insertEmbeddingFails : Bool) :
    Bool × DB × Except ApiError EnrollOk :=
  if cedulaExists db trabajador.cedula then
    (true, db, .error (.httpError 409 ("La cédula '" ++ trabajador.cedula ++ "' ya existe.")))
  else if insertTrabajadorFails then
    (true, db, .error (.httpError 500 "Error en la base de datos: INSERT TRABAJADOR failed"))
  else
    let trabajador_id := nextTrabajadorId db
    match b64decode trabajador.embedding_b64 with
    | none =>
        (true, db, .error (.httpError 500 "Error en la base de datos: Invalid base64-encoded string"))
    | some embedding_bytes =>
        if insertEmbeddingFails then
          (true, db, .error (.httpError 500 "Error en la base de datos: INSERT EMBEDDING_BIOMETRICO failed"))
        else
          (true,
           { db with
              trabajadores := db.trabajadores ++
                [⟨trabajador_id, trabajador.cedula, trabajador.nombre_completo,
                  trabajador.sede_id, true⟩],
              embeddings := db.embeddings ++
                [⟨trabajador_id, some embedding_bytes⟩] },
           .ok ⟨"Trabajador creado exitosamente", trabajador_id⟩)

/-- `sincronizar_asistencia` with connection tracking.  Per-record statement
errors are caught inside the loop; `commitFails` injects a raised error on the
final `conn.commit()`, after which the `conn.close()` on the next line never
runs and nothing pending is committed. -/
def sincronizar_asistencia_conn (db : DB) (failInsert : Nat → Bool)
    (commitFails : Bool) (registros : List AsistenciaRecord) :
    Bool × DB × Except ApiError SyncResponse :=
  let out := asistenciaLoop db failInsert registros 0 [] 0 []
  if commitFails then
    (false, db, .error (.dbError "COMMIT failed"))
  else
    (true, { db with registros := db.registros ++ out.1 },
     .ok ⟨⟨registros.length, out.2.1⟩, out.2.2⟩)

/-! ## Spec-side statements used for refinement comparisons -/

/-- Response row as the spec words it: `embedding_b64` is null exactly when
the stored payload is absent, and the base64 encoding of the payload whenever
the payload is present. -/
def specRowNullIffAbsent (t : Trabajador) (eb : EmbeddingBiometrico) :
    TrabajadorConEmbedding :=
  { id := t.id, cedula := t.cedula, nombre_completo := t.nombre_completo,
    embedding_b64 := eb.embedding_data.map b64encode }

/-- Response row as the code actually behaves: `embedding_b64` is the base64
encoding when the payload is present and nonempty, and null when the payload
is absent or empty. -/
def specRowNullIfAbsentOrEmpty (t : Trabajador) (eb : EmbeddingBiometrico) :
    TrabajadorConEmbedding :=
  { id := t.id, cedula := t.cedula, nombre_completo := t.nombre_completo,
    embedding_b64 :=
      match eb.embedding_data with
      | some (b :: bs) => some (b64encode (b :: bs))
      | _ => none }

/-- The distribution claim as stated: for every site, exactly one response
entry per matching active worker, and the null-iff-absent encoding rule. -/
def claimDistributionPerWorker : Prop :=
  ∀ (db : DB) (sede : Int),
    (∀ w ∈ db.trabajadores, w.sede_id = sede → w.activo = true →
      (get_trabajadores_por_sede db sede).countP (fun r => r.id == w.id) = 1)
    ∧ get_trabajadores_por_sede db sede =
        (joinRows db sede).map (fun p => specRowNullIffAbsent p.1 p.2)

/-- The connection-release claim as stated: each of the four handlers closes
its connection on every exit path, including injected statement failures. -/
def claimAlwaysCloses : Prop :=
  (∀ (db : DB) (cred : OperarioLogin) (sf : Bool),
     (login_operario_conn db cred sf).1 = true)
  ∧ (∀ (db : DB) (sede : Int) (sf : Bool),
     (get_trabajadores_conn db sede sf).1 = true)
  ∧ (∀ (db : DB) (t : NuevoTrabajador) (f1 f2 : Bool),
     (sincronizar_nuevo_trabajador_conn db t f1 f2).1 = true)
  ∧ (∀ (db : DB) (fi : Nat → Bool) (cf : Bool) (regs : List AsistenciaRecord),
     (sincronizar_asistencia_conn db fi cf regs).1 = true)

/-! ## Base64 lemmas -/

/-- Decoding the character that encodes a 6-bit value recovers that value. -/
theorem decChar_encChar : ∀ n, n < 64 → decChar (encChar n) = some n := by decide

/-- No alphabet character is the padding character. -/
theorem encChar_ne_pad : ∀ n, n < 64 → encChar n ≠ '=' := by decide

/-- Alphabet characters survive the b64decode discard step. -/
theorem keep_encChar : ∀ n, n < 64 → b64KeepChar (encChar n) = true := by decide

/-- Padding survives the b64decode discard step. -/
theorem keep_pad : b64KeepChar '=' = true := by decide

/-- Encoder output contains only characters the decoder keeps. -/
theorem b64encodeBytes_all_kept (bs : List Nat) (h : ∀ b ∈ bs, b < 256) :
    (b64encodeBytes bs).filter b64KeepChar = b64encodeBytes bs := by
  induction bs using b64encodeBytes.induct with
  | case1 => rfl
  | case2 b1 =>
    have hb1 : b1 < 256 := h b1 (by simp)
    simp [b64encodeBytes, List.filter, keep_encChar _ (by omega : b1 / 4 < 64),
      keep_encChar _ (by omega : b1 % 4 * 16 < 64), keep_pad]
  | case3 b1 b2 =>
    have hb1 : b1 < 256 := h b1 (by simp)
    have hb2 : b2 < 256 := h b2 (by simp)
    simp [b64encodeBytes, List.filter, keep_encChar _ (by omega : b1 / 4 < 64),
      keep_encChar _ (by omega : b1 % 4 * 16 + b2 / 16 < 64),
      keep_encChar _ (by omega : b2 % 16 * 4 < 64), keep_pad]
  | case4 b1 b2 b3 rest ih =>
    have hb1 : b1 < 256 := h b1 (by simp)
    have hb2 : b2 < 256 := h b2 (by simp)
    have hb3 : b3 < 256 := h b3 (by simp)
    have hrest : ∀ b ∈ rest, b < 256 := fun b hb => h b (by simp [hb])
    simp [b64encodeBytes, List.filter, keep_encChar _ (by omega : b1 / 4 < 64),
      keep_encChar _ (by omega : b1 % 4 * 16 + b2 / 16 < 64),
      keep_encChar _ (by omega : b2 % 16 * 4 + b3 / 64 < 64),
      keep_encChar _ (by omega : b3 % 64 < 64), ih hrest]

/-- Decoding the encoder's raw character stream recovers the byte list. -/
theorem b64decodeQuads_encodeBytes (bs : List Nat) (h : ∀ b ∈ bs, b < 256) :
    b64decodeQuads (b64encodeBytes bs) = some bs := by
  induction bs using b64encodeBytes.induct with
  | case1 => rfl
  | case2 b1 =>
    have hb1 : b1 < 256 := h b1 (by simp)
    have d1 := decChar_encChar (b1 / 4) (by omega)
    have d2 := decChar_encChar (b1 % 4 * 16) (by omega)
    simp [b64encodeBytes, b64decodeQuads, d1, d2]
    omega
  | case3 b1 b2 =>
    have hb1 : b1 < 256 := h b1 (by simp)
    have hb2 : b2 < 256 := h b2 (by simp)
    have d1 := decChar_encChar (b1 / 4) (by omega)
    have d2 := decChar_encChar (b1 % 4 * 16 + b2 / 16) (by omega)
    have d3 := decChar_encChar (b2 % 16 * 4) (by omega)
    have n3 := encChar_ne_pad (b2 % 16 * 4) (by omega)
    simp [b64encodeBytes, b64decodeQuads, d1, d2, d3, n3]
    constructor
    · omega
    · omega
  | case4 b1 b2 b3 rest ih =>
    have hb1 : b1 < 256 := h b1 (by simp)
    have hb2 : b2 < 256 := h b2 (by simp)
    have hb3 : b3 < 256 := h b3 (by simp)
    have hrest : ∀ b ∈ rest, b < 256 := fun b hb => h b (by simp [hb])
    have d1 := decChar_encChar (b1 / 4) (by omega)
    have d2 := decChar_encChar (b1 % 4 * 16 + b2 / 16) (by omega)
    have d3 := decChar_encChar (b2 % 16 * 4 + b3 / 64) (by omega)
    have d4 := decChar_encChar (b3 % 64) (by omega)
    have n3 := encChar_ne_pad (b2 % 16 * 4 + b3 / 64) (by omega)
    have n4 := encChar_ne_pad (b3 % 64) (by omega)
    simp [b64encodeBytes, b64decodeQuads, d1, d2, d3, d4, n3, n4, ih hrest]
    refine ⟨by omega, by omega, by omega⟩

theorem idxOfChar_lt (c : Char) (l : List Char) (e : Nat)
    (h : idxOfChar c l = some e) : e < l.length := by
  induction l generalizing e with
  | nil => simp [idxOfChar] at h
  | cons a rest ih =>
    by_cases ha : a = c
    · simp [idxOfChar, ha] at h
      simp [List.length_cons]
      omega
    · simp [idxOfChar, ha] at h
      obtain ⟨e0, he0, rfl⟩ := h
      have := ih e0 he0
      simp [List.length_cons]
      omega

theorem decChar_lt (c : Char) (e : Nat) (h : decChar c = some e) : e < 64 := by
  have := idxOfChar_lt c b64Alphabet e h
  simpa [b64Alphabet] using this

theorem b64decodeQuads_lt (cs : List Char) : ∀ (bs : List Nat),
    b64decodeQuads cs = some bs → ∀ b ∈ bs, b < 256 := by
  induction cs using b64decodeQuads.induct with
  | case1 =>
    intro bs h b hb
    simp [b64decodeQuads] at h
    subst h
    simp at hb
  | case2 c1 c2 c4 rest e1 e2 h2 h1 hpe =>
    intro bs h b hb
    have l1 := decChar_lt c1 e1 h1
    have l2 := decChar_lt c2 e2 h2
    simp [b64decodeQuads, h1, h2, hpe.1, hpe.2] at h
    subst h
    simp at hb
    omega
  | case3 c1 c2 c4 rest e1 e2 h2 h1 hpe =>
    intro bs h b hb
    simp [b64decodeQuads, h1, h2, hpe] at h
  | case4 c1 c2 c3 e1 e2 h2 h1 hc3 e3 h3 =>
    intro bs h b hb
    have l1 := decChar_lt c1 e1 h1
    have l2 := decChar_lt c2 e2 h2
    have l3 := decChar_lt c3 e3 h3
    simp [b64decodeQuads, h1, h2, h3, hc3] at h
    subst h
    simp at hb
    rcases hb with hb | hb <;> omega
  | case5 c1 c2 c3 rest e1 e2 h2 h1 hc3 e3 h3 hrest =>
    intro bs h b hb
    simp [b64decodeQuads, h1, h2, h3, hc3, hrest] at h
  | case6 c1 c2 c3 c4 rest e1 e2 h2 h1 hc3 e3 h3 hc4 e4 h4 ih =>
    intro bs h b hb
    have l1 := decChar_lt c1 e1 h1
    have l2 := decChar_lt c2 e2 h2
    have l3 := decChar_lt c3 e3 h3
    have l4 := decChar_lt c4 e4 h4
    simp [b64decodeQuads, h1, h2, h3, h4, hc3, hc4] at h
    obtain ⟨restBs, hrestBs, rfl⟩ := h
    simp at hb
    rcases hb with hb | hb | hb | hb
    · omega
    · omega
    · omega
    · exact ih restBs hrestBs b hb
  | case7 c1 c2 c3 c4 rest e1 e2 h2 h1 hc3 e3 h3 hc4 h4 =>
    intro bs h b hb
    simp [b64decodeQuads, h1, h2, h3, h4, hc3, hc4] at h
  | case8 c1 c2 c3 c4 rest e1 e2 h2 h1 hc3 h3 =>
    intro bs h b hb
    simp [b64decodeQuads, h1, h2, h3, hc3] at h
  | case9 c1 c2 c3 c4 rest hfail =>
    intro bs h b hb
    rcases hd1 : decChar c1 with _ | e1 <;> rcases hd2 : decChar c2 with _ | e2
    · simp [b64decodeQuads, hd1, hd2] at h
    · simp [b64decodeQuads, hd1, hd2] at h
    · simp [b64decodeQuads, hd1, hd2] at h
    · exact absurd trivial (fun _ => hfail e1 e2 hd1 hd2)
  | case10 t hne hnq =>
    intro bs h b hb
    rcases t with _ | ⟨a1, _ | ⟨a2, _ | ⟨a3, _ | ⟨a4, rest⟩⟩⟩⟩
    · exact absurd rfl hne
    · simp [b64decodeQuads] at h
    · simp [b64decodeQuads] at h
    · simp [b64decodeQuads] at h
    · exact absurd rfl (hnq a1 a2 a3 a4 rest)

/-- Standard base64 round-trips on byte lists: decoding the encoding of any
byte list returns exactly that list. -/
theorem b64decode_b64encode (bs : List Nat) (h : ∀ b ∈ bs, b < 256) :
    b64decode (b64encode bs) = some bs := by
  unfold b64decode b64encode
  rw [show (String.mk (b64encodeBytes bs)).data = b64encodeBytes bs from rfl]
  rw [b64encodeBytes_all_kept bs h]
  exact b64decodeQuads_encodeBytes bs h

/-! ## Reconciliation loop lemmas -/

/-- With no injected storage failures, the batch loop appends one pending
insert per resolved record, counts exactly the resolved records, and appends
one not-found error entry per unresolved record, in batch order. -/
theorem asistenciaLoop_noFail (db : DB) (regs : List AsistenciaRecord) :
    ∀ (i : Nat) (pending : List RegistroAsistencia) (g : Nat) (errs : List ItemError),
    asistenciaLoop db (fun _ => false) regs i pending g errs =
      (pending ++ regs.filterMap
         (fun r => (findTrabajadorByCedula db r.cedula).map
            (fun t => ⟨t.id, r.timestamp, r.tipo_evento⟩)),
       g + regs.countP (fun r => (findTrabajadorByCedula db r.cedula).isSome),
       errs ++ (regs.filter (fun r => (findTrabajadorByCedula db r.cedula).isNone)).map
         (fun r => ⟨r.cedula, "Cédula no encontrada."⟩)) := by
  induction regs with
  | nil => intro i pending g errs; simp [asistenciaLoop]
  | cons r rest ih =>
    intro i pending g errs
    cases hf : findTrabajadorByCedula db r.cedula with
    | some t =>
      simp only [asistenciaLoop, hf, ih, List.filterMap_cons, List.countP_cons,
        List.filter_cons, Option.isSome_some, Option.isNone_some, Option.map_some]
      simp
      omega
    | none =>
      simp only [asistenciaLoop, hf, ih, List.filterMap_cons, List.countP_cons,
        List.filter_cons, Option.isSome_none, Option.isNone_none, Option.map_none]
      simp

/-- Every record of the batch contributes exactly one outcome: the success
tally plus the number of error entries grows by exactly the batch length. -/
theorem asistenciaLoop_tally (db : DB) (fi : Nat → Bool) (regs : List AsistenciaRecord) :
    ∀ (i : Nat) (pending : List RegistroAsistencia) (g : Nat) (errs : List ItemError),
    (asistenciaLoop db fi regs i pending g errs).2.1 +
      (asistenciaLoop db fi regs i pending g errs).2.2.length =
      g + errs.length + regs.length := by
  induction regs with
  | nil => intro i pending g errs; simp [asistenciaLoop]
  | cons r rest ih =>
    intro i pending g errs
    cases hf : findTrabajadorByCedula db r.cedula with
    | some t =>
      by_cases hfi : fi i
      · simp only [asistenciaLoop, hf, hfi, if_pos]
        rw [ih]
        simp
        omega
      · simp only [asistenciaLoop, hf, hfi, if_neg, if_false, Bool.false_eq_true]
        rw [ih]
        simp
        omega
    | none =>
      simp only [asistenciaLoop, hf]
      rw [ih]
      simp
      omega

/-! ## Claims -/

/-- Pointwise, the loop body of the distribution endpoint emits null exactly
when the stored payload is absent or empty, and base64 otherwise. -/
theorem rowToResponse_eq_spec (t : Trabajador) (eb : EmbeddingBiometrico) :
    rowToResponse t eb = specRowNullIfAbsentOrEmpty t eb := by
  unfold rowToResponse specRowNullIfAbsentOrEmpty
  cases hd : eb.embedding_data with
  | none => rfl
  | some bs => cases bs with
    | nil => rfl
    | cons b rest => simp [pyTruthyBytes]

/-- C1 (counterexample): the claim fails on the code.  At a site with an
active worker that has no embedding row, the inner join omits that worker
entirely (no entry, not one); and for a worker whose stored payload is present
but empty, the code emits null instead of the base64 encoding of the empty
payload. -/
theorem C1_counterexample : ¬ claimDistributionPerWorker := by
  intro h
  exact absurd
    (h ⟨[], [⟨1, "100", "W1", 7, true⟩, ⟨2, "200", "W2", 7, true⟩],
        [⟨2, some []⟩], []⟩ 7)
    (by decide)

/-- C1 (amended): Embedding Distribution returns one entry per
(matching active worker, embedding row) join pair; a matching active worker
with no embedding row is omitted; for a returned row, `embedding_b64` is the
standard base64 encoding of the payload when it is present and nonempty, and
null (not omitted) when the payload is absent or empty. -/
theorem C1_amended (db : DB) (sede : Int) :
    get_trabajadores_por_sede db sede =
      (joinRows db sede).map (fun p => specRowNullIfAbsentOrEmpty p.1 p.2) ∧
    (∀ w ∈ db.trabajadores,
      db.embeddings.filter (fun eb => eb.trabajador_id == w.id) = [] →
      ∀ r ∈ get_trabajadores_por_sede db sede, r.id ≠ w.id) := by
  constructor
  · unfold get_trabajadores_por_sede
    exact List.map_congr_left (fun p _ => rowToResponse_eq_spec p.1 p.2)
  · intro w hw hfilter r hr hid
    unfold get_trabajadores_por_sede at hr
    obtain ⟨p, hp, rfl⟩ := List.mem_map.mp hr
    unfold joinRows at hp
    obtain ⟨t, ht, hp2⟩ := List.mem_flatMap.mp hp
    obtain ⟨eb, heb, rfl⟩ := List.mem_map.mp hp2
    have h1 : eb.trabajador_id = t.id := by
      simpa using (List.mem_filter.mp heb).2
    have htid : t.id = w.id := by simpa [rowToResponse] using hid
    have : eb ∈ db.embeddings.filter (fun e => e.trabajador_id == w.id) := by
      refine List.mem_filter.mpr ⟨(List.mem_filter.mp heb).1, ?_⟩
      simp [h1, htid]
    rw [hfilter] at this
    simp at this

/-- Witness for C1_amended: a concrete site where the active worker with no
embedding row yields no entry. -/
theorem C1_amended_witness :
    (⟨1, "100", "W1", 7, true⟩ : Trabajador) ∈
      (⟨[], [⟨1, "100", "W1", 7, true⟩, ⟨2, "200", "W2", 7, true⟩],
        [⟨2, some [77, 97, 110]⟩], []⟩ : DB).trabajadores ∧
    (⟨[], [⟨1, "100", "W1", 7, true⟩, ⟨2, "200", "W2", 7, true⟩],
        [⟨2, some [77, 97, 110]⟩], []⟩ : DB).embeddings.filter
      (fun eb => eb.trabajador_id == 1) = [] ∧
    ∀ r ∈ get_trabajadores_por_sede
      ⟨[], [⟨1, "100", "W1", 7, true⟩, ⟨2, "200", "W2", 7, true⟩],
        [⟨2, some [77, 97, 110]⟩], []⟩ 7, r.id ≠ 1 :=
  ⟨by decide, by decide,
   (C1_amended ⟨[], [⟨1, "100", "W1", 7, true⟩, ⟨2, "200", "W2", 7, true⟩],
      [⟨2, some [77, 97, 110]⟩], []⟩ 7).2 ⟨1, "100", "W1", 7, true⟩
      (by decide) (by decide)⟩

/-- A cedula held by no worker row does not trip the uniqueness check. -/
theorem cedulaExists_false (db : DB) (c : String)
    (h : ∀ w ∈ db.trabajadores, w.cedula ≠ c) : cedulaExists db c = false := by
  simp only [cedulaExists, List.any_eq_false]
  intro w hw
  simpa using h w hw

/-- A cedula held by some worker row trips the uniqueness check. -/
theorem cedulaExists_true (db : DB) (c : String)
    (h : ∃ w ∈ db.trabajadores, w.cedula = c) : cedulaExists db c = true := by
  obtain ⟨w, hw, hc⟩ := h
  simp only [cedulaExists, List.any_eq_true]
  exact ⟨w, hw, by simp [hc]⟩

/-- C2: Worker Enrollment is atomic.  For a fresh cedula, if a step after the
worker insert fails — the base64 decode raising, or the embedding insert
raising an injected storage error — the whole unit rolls back: the committed
state is exactly the original one, no worker row with that cedula persists,
and the call reports a 500. -/
theorem C2_atomic (db : DB) (t : NuevoTrabajador) (f2 : Bool)
    (hfresh : ∀ w ∈ db.trabajadores, w.cedula ≠ t.cedula)
    (hfail : b64decode t.embedding_b64 = none ∨ f2 = true) :
    (sincronizar_nuevo_trabajador_conn db t false f2).2.1 = db ∧
    (∀ w ∈ (sincronizar_nuevo_trabajador_conn db t false f2).2.1.trabajadores,
       w.cedula ≠ t.cedula) ∧
    (∃ d, (sincronizar_nuevo_trabajador_conn db t false f2).2.2 =
       .error (.httpError 500 d)) := by
  have hce := cedulaExists_false db t.cedula hfresh
  have hdb : (sincronizar_nuevo_trabajador_conn db t false f2).2 =
      (db, .error (.httpError 500 "Error en la base de datos: Invalid base64-encoded string")) ∨
      (sincronizar_nuevo_trabajador_conn db t false f2).2 =
      (db, .error (.httpError 500 "Error en la base de datos: INSERT EMBEDDING_BIOMETRICO failed")) := by
    rcases hfail with hdec | hf2
    · left
      simp [sincronizar_nuevo_trabajador_conn, hce, hdec]
    · cases hdec : b64decode t.embedding_b64 with
      | none => left; simp [sincronizar_nuevo_trabajador_conn, hce, hdec]
      | some bs => right; simp [sincronizar_nuevo_trabajador_conn, hce, hdec, hf2]
  rcases hdb with hdb | hdb <;>
    rw [show (sincronizar_nuevo_trabajador_conn db t false f2).2.1 =
          ((sincronizar_nuevo_trabajador_conn db t false f2).2).1 from rfl,
        show (sincronizar_nuevo_trabajador_conn db t false f2).2.2 =
          ((sincronizar_nuevo_trabajador_conn db t false f2).2).2 from rfl, hdb] <;>
    exact ⟨rfl, hfresh, _, rfl⟩

/-- Witness for C2 at a concrete request whose embedding text is not valid
base64 (three data characters cannot form a base64 quantum). -/
theorem C2_atomic_witness :
    (∀ w ∈ (⟨[], [], [], []⟩ : DB).trabajadores, w.cedula ≠ "123") ∧
    (b64decode "abc" = none ∨ false = true) ∧
    (sincronizar_nuevo_trabajador_conn ⟨[], [], [], []⟩ ⟨"123", "Nueva", 7, "abc"⟩
        false false).2.1 = ⟨[], [], [], []⟩ ∧
    (∀ w ∈ (sincronizar_nuevo_trabajador_conn ⟨[], [], [], []⟩
        ⟨"123", "Nueva", 7, "abc"⟩ false false).2.1.trabajadores,
       w.cedula ≠ "123") ∧
    (∃ d, (sincronizar_nuevo_trabajador_conn ⟨[], [], [], []⟩
        ⟨"123", "Nueva", 7, "abc"⟩ false false).2.2 = .error (.httpError 500 d)) := by
  refine ⟨by decide, Or.inl (by decide), ?_⟩
  have := C2_atomic ⟨[], [], [], []⟩ ⟨"123", "Nueva", 7, "abc"⟩ false
    (by decide) (Or.inl (by decide))
  exact ⟨this.1, this.2.1, this.2.2⟩

/-- C5: enrolling a cedula that already exists aborts with a 409 naming the
duplicate cedula; the committed state is unchanged (so the worker and
embedding row counts are unchanged), and this happens whatever the embedding
text is — the decode and the embedding insert are never attempted. -/
theorem C5_conflict (db : DB) (t : NuevoTrabajador)
    (hdup : ∃ w ∈ db.trabajadores, w.cedula = t.cedula) :
    sincronizar_nuevo_trabajador db t =
      (db, .error (.httpError 409 ("La cédula '" ++ t.cedula ++ "' ya existe."))) ∧
    (sincronizar_nuevo_trabajador db t).1.trabajadores.length =
      db.trabajadores.length ∧
    (sincronizar_nuevo_trabajador db t).1.embeddings.length =
      db.embeddings.length := by
  have hce := cedulaExists_true db t.cedula hdup
  have h : sincronizar_nuevo_trabajador db t =
      (db, .error (.httpError 409 ("La cédula '" ++ t.cedula ++ "' ya existe."))) := by
    simp [sincronizar_nuevo_trabajador, hce]
  exact ⟨h, by rw [h], by rw [h]⟩

/-- Witness for C5: re-enrolling cedula 100 (present, even with undecodable
embedding text) yields the 409 and leaves the table lengths unchanged. -/
theorem C5_conflict_witness :
    (∃ w ∈ (⟨[], [⟨1, "100", "W1", 7, true⟩], [⟨1, some [5]⟩], []⟩ : DB).trabajadores,
       w.cedula = "100") ∧
    sincronizar_nuevo_trabajador ⟨[], [⟨1, "100", "W1", 7, true⟩], [⟨1, some [5]⟩], []⟩
        ⟨"100", "Otra", 7, "not-base64!"⟩ =
      (⟨[], [⟨1, "100", "W1", 7, true⟩], [⟨1, some [5]⟩], []⟩,
       .error (.httpError 409 "La cédula '100' ya existe.")) :=
  ⟨⟨⟨1, "100", "W1", 7, true⟩, by decide, rfl⟩,
   by
    have := C5_conflict ⟨[], [⟨1, "100", "W1", 7, true⟩], [⟨1, some [5]⟩], []⟩
      ⟨"100", "Otra", 7, "not-base64!"⟩ ⟨⟨1, "100", "W1", 7, true⟩, by decide, rfl⟩
    exact this.1⟩

/-- C6: the outcome of Authentication Lookup does not depend on the supplied
secret — any two passwords give identical results; an existing identifier
yields its {id, nombre, sede_id, rol} record, a nonexistent one yields the
404, in both runs. -/
theorem C6_password_irrelevant (db : DB) (u p1 p2 : String) :
    login_operario db ⟨u, p1⟩ = login_operario db ⟨u, p2⟩ ∧
    (findOperario db u = none →
      login_operario db ⟨u, p1⟩ = .error (.httpError 404 "Usuario no encontrado.")) ∧
    (∀ o, findOperario db u = some o →
      login_operario db ⟨u, p1⟩ = .ok ⟨o.id, o.nombre, o.sede_id, o.rol⟩) := by
  refine ⟨rfl, ?_, ?_⟩
  · intro h
    simp [login_operario, h]
  · intro o h
    simp [login_operario, h]

/-- Witness for C6: right and wrong passwords give the same success for an
existing user, and the 404 for an unknown user. -/
theorem C6_password_irrelevant_witness :
    login_operario ⟨[⟨1, "ana", "Ana", 2, "admin", "h"⟩], [], [], []⟩ ⟨"ana", "right"⟩ =
      login_operario ⟨[⟨1, "ana", "Ana", 2, "admin", "h"⟩], [], [], []⟩ ⟨"ana", "wrong"⟩ ∧
    login_operario ⟨[⟨1, "ana", "Ana", 2, "admin", "h"⟩], [], [], []⟩ ⟨"ana", "wrong"⟩ =
      .ok ⟨1, "Ana", 2, "admin"⟩ ∧
    login_operario ⟨[⟨1, "ana", "Ana", 2, "admin", "h"⟩], [], [], []⟩ ⟨"bob", "x"⟩ =
      .error (.httpError 404 "Usuario no encontrado.") :=
  ⟨(C6_password_irrelevant ⟨[⟨1, "ana", "Ana", 2, "admin", "h"⟩], [], [], []⟩
      "ana" "right" "wrong").1,
   (C6_password_irrelevant ⟨[⟨1, "ana", "Ana", 2, "admin", "h"⟩], [], [], []⟩
      "ana" "wrong" "wrong").2.2 ⟨1, "ana", "Ana", 2, "admin", "h"⟩ (by decide),
   (C6_password_irrelevant ⟨[⟨1, "ana", "Ana", 2, "admin", "h"⟩], [], [], []⟩
      "bob" "x" "x").2.1 (by decide)⟩

/-- C3: in a reconciliation batch (no storage failures injected), every record
whose cedula resolves to no worker contributes exactly one error entry naming
that cedula, in batch order, without aborting the rest: the success tally is
exactly the number of resolved records and `recibidos` the batch length.  The
final conjunct is the claim's 3-record example: recibidos=3,
guardados_exitosamente=2, one error naming the unknown cedula. -/
theorem C3_unknown_cedula (db : DB) (regs : List AsistenciaRecord) :
    (sincronizar_asistencia db (fun _ => false) regs).2.errores =
      (regs.filter (fun r => (findTrabajadorByCedula db r.cedula).isNone)).map
        (fun r => ⟨r.cedula, "Cédula no encontrada."⟩) ∧
    (sincronizar_asistencia db (fun _ => false) regs).2.resumen.guardados_exitosamente =
      regs.countP (fun r => (findTrabajadorByCedula db r.cedula).isSome) ∧
    (sincronizar_asistencia db (fun _ => false) regs).2.resumen.recibidos =
      regs.length ∧
    (sincronizar_asistencia
        ⟨[], [⟨1, "100", "W1", 7, true⟩, ⟨2, "200", "W2", 7, true⟩], [], []⟩
        (fun _ => false)
        [⟨"100", "t1", "entrada"⟩, ⟨"999", "t2", "entrada"⟩,
         ⟨"200", "t3", "salida"⟩]).2 =
      ⟨⟨3, 2⟩, [⟨"999", "Cédula no encontrada."⟩]⟩ := by
  refine ⟨?_, ?_, ?_, by decide⟩
  · simp [sincronizar_asistencia, asistenciaLoop_noFail]
  · simp [sincronizar_asistencia, asistenciaLoop_noFail]
  · simp [sincronizar_asistencia]

/-- C9: for every batch and every pattern of injected insert failures, the
response satisfies recibidos = guardados_exitosamente + length of errores:
each record contributes exactly one outcome. -/
theorem C9_one_outcome_per_record (db : DB) (failInsert : Nat → Bool)
    (regs : List AsistenciaRecord) :
    (sincronizar_asistencia db failInsert regs).2.resumen.recibidos =
      (sincronizar_asistencia db failInsert regs).2.resumen.guardados_exitosamente +
      (sincronizar_asistencia db failInsert regs).2.errores.length := by
  have h := asistenciaLoop_tally db failInsert regs 0 [] 0 []
  simp only [sincronizar_asistencia]
  simp only [List.length_nil] at h
  omega

/-- C4: when the AttendanceEvent insert of a later record raises, the handler
rolls back the whole shared connection's pending transaction state: with two
resolvable records and a failure injected on the second insert, the committed
REGISTRO_ASISTENCIA table is unchanged — the first record's insert is erased —
even though the success tally still counts it. -/
theorem C4_shared_rollback (db : DB) (r1 r2 : AsistenciaRecord)
    (t1 t2 : Trabajador) (failInsert : Nat → Bool)
    (h1 : findTrabajadorByCedula db r1.cedula = some t1)
    (h2 : findTrabajadorByCedula db r2.cedula = some t2)
    (hf0 : failInsert 0 = false) (hf1 : failInsert 1 = true) :
    (sincronizar_asistencia db failInsert [r1, r2]).1.registros = db.registros ∧
    (sincronizar_asistencia db failInsert [r1, r2]).2.resumen.guardados_exitosamente
      = 1 := by
  simp [sincronizar_asistencia, asistenciaLoop, h1, h2, hf0, hf1]

/-- Witness for C4: two known cedulas, insert failure injected on the second;
no event row is committed though guardados_exitosamente = 1. -/
theorem C4_shared_rollback_witness :
    (sincronizar_asistencia
        ⟨[], [⟨1, "100", "W1", 7, true⟩, ⟨2, "200", "W2", 7, true⟩], [], []⟩
        (fun i => i == 1)
        [⟨"100", "t1", "entrada"⟩, ⟨"200", "t2", "salida"⟩]).1.registros = [] ∧
    (sincronizar_asistencia
        ⟨[], [⟨1, "100", "W1", 7, true⟩, ⟨2, "200", "W2", 7, true⟩], [], []⟩
        (fun i => i == 1)
        [⟨"100", "t1", "entrada"⟩, ⟨"200", "t2", "salida"⟩]).2.resumen.guardados_exitosamente = 1 :=
  C4_shared_rollback
    ⟨[], [⟨1, "100", "W1", 7, true⟩, ⟨2, "200", "W2", 7, true⟩], [], []⟩
    ⟨"100", "t1", "entrada"⟩ ⟨"200", "t2", "salida"⟩
    ⟨1, "100", "W1", 7, true⟩ ⟨2, "200", "W2", 7, true⟩
    (fun i => i == 1) (by decide) (by decide) (by decide) (by decide)

/-- C10: the reconciliation lookup does not filter on the active flag — a
record whose cedula resolves to an inactive worker is still persisted as an
AttendanceEvent and counted as a success. -/
theorem C10_inactive_counted (db : DB) (reg : AsistenciaRecord) (t : Trabajador)
    (hfind : findTrabajadorByCedula db reg.cedula = some t)
    (hinactive : t.activo = false) :
    sincronizar_asistencia db (fun _ => false) [reg] =
      ({ db with registros := db.registros ++ [⟨t.id, reg.timestamp, reg.tipo_evento⟩] },
       ⟨⟨1, 1⟩, []⟩) := by
  simp [sincronizar_asistencia, asistenciaLoop, hfind]

/-- Witness for C10: an inactive worker's cedula still produces a saved event. -/
theorem C10_inactive_counted_witness :
    findTrabajadorByCedula ⟨[], [⟨3, "300", "W3", 7, false⟩], [], []⟩ "300" =
      some ⟨3, "300", "W3", 7, false⟩ ∧
    (⟨3, "300", "W3", 7, false⟩ : Trabajador).activo = false ∧
    sincronizar_asistencia ⟨[], [⟨3, "300", "W3", 7, false⟩], [], []⟩
        (fun _ => false) [⟨"300", "t9", "entrada"⟩] =
      (⟨[], [⟨3, "300", "W3", 7, false⟩], [],
        [⟨3, "t9", "entrada"⟩]⟩,
       ⟨⟨1, 1⟩, []⟩) :=
  ⟨by decide, rfl,
   C10_inactive_counted ⟨[], [⟨3, "300", "W3", 7, false⟩], [], []⟩
     ⟨"300", "t9", "entrada"⟩ ⟨3, "300", "W3", 7, false⟩ (by decide) rfl⟩

/-- C7 (counterexample): the claim that every operation closes its connection
on every exit path fails on the code — a raised error on the login SELECT
propagates past the close, leaving the connection open. -/
theorem C7_counterexample : ¬ claimAlwaysCloses := by
  intro h
  exact absurd (h.1 ⟨[], [], [], []⟩ ⟨"u", "p"⟩ true) (by decide)

/-- C7 (amended): Worker Enrollment, whose body runs under try/finally,
closes its connection on every exit path including injected insert failures;
the other three handlers close it only on paths where no statement or commit
raises. -/
theorem C7_amended :
    (∀ (db : DB) (t : NuevoTrabajador) (f1 f2 : Bool),
       (sincronizar_nuevo_trabajador_conn db t f1 f2).1 = true) ∧
    (∀ (db : DB) (cred : OperarioLogin), (login_operario_conn db cred false).1 = true) ∧
    (∀ (db : DB) (sede : Int), (get_trabajadores_conn db sede false).1 = true) ∧
    (∀ (db : DB) (failInsert : Nat → Bool) (regs : List AsistenciaRecord),
       (sincronizar_asistencia_conn db failInsert false regs).1 = true) := by
  refine ⟨?_, fun db cred => rfl, fun db sede => rfl, fun db failInsert regs => rfl⟩
  intro db t f1 f2
  cases hce : cedulaExists db t.cedula with
  | true => simp [sincronizar_nuevo_trabajador_conn, hce]
  | false =>
    cases f1 with
    | true => simp [sincronizar_nuevo_trabajador_conn, hce]
    | false =>
      cases hdec : b64decode t.embedding_b64 with
      | none => simp [sincronizar_nuevo_trabajador_conn, hce, hdec]
      | some bs =>
        cases f2 with
        | true => simp [sincronizar_nuevo_trabajador_conn, hce, hdec]
        | false => simp [sincronizar_nuevo_trabajador_conn, hce, hdec]

/-- C8: for every payload stored at enrollment — i.e. every byte list obtained
by base64-decoding valid `embedding_b64` text — the base64 encoding performed
by Embedding Distribution decodes back to a byte-identical payload:
decode-then-encode-then-decode is the identity on stored bytes. -/
theorem C8_roundtrip (s : String) (bs : List Nat)
    (h : b64decode s = some bs) :
    b64decode (b64encode bs) = some bs :=
  b64decode_b64encode bs (b64decodeQuads_lt (s.data.filter b64KeepChar) bs h)

/-- Witness for C8 at the concrete enrollment text TWFu. -/
theorem C8_roundtrip_witness :
    b64decode "TWFu" = some [77, 97, 110] ∧
    b64decode (b64encode [77, 97, 110]) = some [77, 97, 110] :=
  ⟨by decide, C8_roundtrip "TWFu" [77, 97, 110] (by decide)⟩

end Sioma
